import Mathlib

/-!
Shallow embedding of the co2biologger fusion pipeline.

The definitions below are translated from the repository sources:
  * fusionv3.py           — multi-day fuser (load_day_co2, flatten_hr, main loop)
  * fusionv2.py           — single-day fuser (tolerant JSON reader, merge_asof)
  * old_fusion_code/fusionv2.py — legacy fuser (Avg/value/Min/Max fallback)

Timestamps are modelled as integers (seconds); numeric sensor values as
rationals.  pandas `merge_asof` (direction nearest, inclusive tolerance,
ties to the earlier/backward candidate) and `resample("60s").mean()`
(right-open epoch-aligned buckets, empty buckets dropped by `.dropna()`)
are embedded directly, since the scripts' semantics are those calls.
-/

namespace Co2Fusion

/-! ### Record decoder: tolerant CO₂ line reader

fusionv3.py, load_day_co2 (lines 77–86):
    ln = ln.strip().rstrip(",")
    if ln in ("", "[", "]"): continue
    try: records.append(json.loads(ln))
    except json.JSONDecodeError: continue
The structured parse (`json.loads`) is a library call; the decoder is
parameterised over it, and a concrete reader for the line grammar used by
the logger (flat objects of string/number fields) is given below. -/

def is_space_char (c : Char) : Bool :=
  c = ' ' || c = '\t' || c = '\n' || c = '\r'

/-- Python `str.strip()`: whitespace removed from both ends. -/
def py_strip (s : String) : String :=
  String.mk ((((s.toList.dropWhile is_space_char).reverse).dropWhile is_space_char).reverse)

/-- Python `str.rstrip(",")`: all trailing commas removed. -/
def rstrip_commas (s : String) : String :=
  String.mk (((s.toList.reverse).dropWhile (fun c => c = ',')).reverse)

/-- `ln.strip().rstrip(",")` of the CO₂ line loop. -/
def clean_line (s : String) : String :=
  rstrip_commas (py_strip s)

def decode_co2_lines {α : Type} (jparse : String → Option α) (lines : List String) : List α :=
  lines.filterMap (fun ln =>
    let s := clean_line ln
    if s = "" ∨ s = "[" ∨ s = "]" then none else jparse s)

/-- A parsed JSON scalar: the logger lines only hold strings and numbers. -/
inductive JVal : Type
  | jstr (s : String)
  | jnum (q : ℚ)
deriving DecidableEq, Repr

def skip_ws (cs : List Char) : List Char :=
  cs.dropWhile (fun c => c = ' ' || c = '\t')

def take_str_chars : List Char → Option (List Char × List Char)
  | [] => none
  | c :: cs =>
    if c = '"' then some ([], cs)
    else
      match take_str_chars cs with
      | some (s, rest) => some (c :: s, rest)
      | none => none

def num_of_digits (ds : List Char) : Nat :=
  ds.foldl (fun a c => a * 10 + (c.toNat - 48)) 0

def take_num (cs : List Char) : Option (ℚ × List Char) :=
  let (neg, cs1) :=
    match cs with
    | '-' :: r => (true, r)
    | _ => (false, cs)
  let (ds, cs2) := cs1.span (fun c => c.isDigit)
  if ds.isEmpty then none
  else
    match cs2 with
    | '.' :: cs3 =>
      let (fs, cs4) := cs3.span (fun c => c.isDigit)
      if fs.isEmpty then none
      else
        let q : ℚ := (num_of_digits ds : ℚ) + (num_of_digits fs : ℚ) / ((10 : ℚ) ^ fs.length)
        some (if neg then -q else q, cs4)
    | _ =>
      some (if neg then -(num_of_digits ds : ℚ) else (num_of_digits ds : ℚ), cs2)

def take_value (cs : List Char) : Option (JVal × List Char) :=
  match skip_ws cs with
  | '"' :: r =>
    match take_str_chars r with
    | some (s, rest) => some (JVal.jstr (String.mk s), rest)
    | none => none
  | r =>
    match take_num r with
    | some (q, rest) => some (JVal.jnum q, rest)
    | none => none

def take_pairs : Nat → List Char → Option (List (String × JVal) × List Char)
  | 0, _ => none
  | fuel + 1, cs =>
    match skip_ws cs with
    | '"' :: r =>
      match take_str_chars r with
      | none => none
      | some (k, r2) =>
        match skip_ws r2 with
        | ':' :: r3 =>
          match take_value r3 with
          | none => none
          | some (v, r4) =>
            match skip_ws r4 with
            | ',' :: r5 =>
              match take_pairs fuel r5 with
              | some (ps, rest) => some ((String.mk k, v) :: ps, rest)
              | none => none
            | c :: r5 => if c = '\x7d' then some ([(String.mk k, v)], r5) else none
            | [] => none
        | _ => none
    | _ => none

/-- Reader for one logger line: a flat JSON object of string/number fields.
Stands in for `json.loads` on the line grammar the logger emits; a
truncated line (no closing brace) fails, as `json.loads` would. -/
def json_loads_obj (s : String) : Option (List (String × JVal)) :=
  match skip_ws s.toList with
  | c :: r =>
    if c = '\x7b' then
      match skip_ws r with
      | c2 :: r2 =>
        if c2 = '\x7d' then (if (skip_ws r2).isEmpty then some [] else none)
        else
          match take_pairs (s.length + 1) (c2 :: r2) with
          | some (ps, rest) => if (skip_ws rest).isEmpty then some ps else none
          | none => none
      | [] => none
    else none
  | [] => none

/-! ### Heart-rate beat extraction

fusionv3.py, flatten_hr (lines 58–64):
    beat.get("Avg", beat.get("value"))
old_fusion_code/fusionv2.py (lines 80–86):
    d.get("Avg", d.get("value") or d.get("Min") or d.get("Max"))
A beat is a dict; a missing key is `none`.  Python `x or y` yields `y`
when `x` is falsy (`None` or `0`). -/

structure Beat : Type where
  date : Int
  avg : Option ℚ
  value : Option ℚ
  min : Option ℚ
  max : Option ℚ
  source : Option String
  context : Option String
deriving DecidableEq, Repr

/-- Python `x or y` on optional numbers: `None` and `0` are falsy. -/
def py_or (x y : Option ℚ) : Option ℚ :=
  match x with
  | none => y
  | some q => if q = 0 then y else some q

/-- fusionv3.py flatten_hr: `beat.get("Avg", beat.get("value"))`. -/
def hr_of_beat (b : Beat) : Option ℚ :=
  match b.avg with
  | some a => some a
  | none => b.value

/-- old_fusion_code/fusionv2.py:
`d.get("Avg", d.get("value") or d.get("Min") or d.get("Max"))`. -/
def hr_of_beat_legacy (b : Beat) : Option ℚ :=
  match b.avg with
  | some a => some a
  | none => py_or (py_or b.value b.min) b.max

structure Metric : Type where
  name : String
  data : List Beat
deriving DecidableEq, Repr

structure Payload : Type where
  metrics : List Metric
deriving DecidableEq, Repr

/-- One flattened heart-rate row: `(timestamp, hr_bpm, source, context)`. -/
structure HrRow : Type where
  ts : Int
  hr : Option ℚ
  source : Option String
  context : Option String
deriving DecidableEq, Repr

/-- fusionv3.py flatten_hr row loop: each raw-archive row either parses
(`ast.literal_eval`) to a payload or is skipped (`except: continue`);
for each `heart_rate` metric every beat yields one flat row. -/
def flatten_rows (raws : List (Option Payload)) : List HrRow :=
  raws.flatMap (fun o =>
    match o with
    | none => []
    | some p =>
      (p.metrics.filter (fun m => m.name = "heart_rate")).flatMap (fun m =>
        m.data.map (fun b => ⟨b.date, hr_of_beat b, b.source, b.context⟩)))

/-! ### Series normalizer

fusionv3.py load_day_co2 (lines 90–107) / fusionv2.py (lines 109–112):
    .set_index("timestamp").resample("60s").mean().dropna().reset_index()
`resample("60s")` buckets into right-open epoch-aligned 60 s intervals,
`.mean()` averages each bucket, `.dropna()` drops empty buckets. -/

def bucket_of (w : Int) (t : Int) : Int := (Int.fdiv t w) * w

def insert_sorted_int (x : Int) : List Int → List Int
  | [] => [x]
  | y :: ys => if x ≤ y then x :: y :: ys else y :: insert_sorted_int x ys

def sort_ints (l : List Int) : List Int := l.foldr insert_sorted_int []

def mean_q (xs : List ℚ) : ℚ := xs.sum / (xs.length : ℚ)

/-- `resample(w seconds).mean().dropna()` on a series of (time, value)
samples: the sorted list of non-empty buckets, each with the mean of the
values that fall in it. -/
def resample_mean (w : Int) (samples : List (Int × ℚ)) : List (Int × ℚ) :=
  (sort_ints ((samples.map (fun p => bucket_of w p.1)).dedup)).map
    (fun b => (b, mean_q ((samples.filter (fun p => bucket_of w p.1 = b)).map (fun p => p.2))))

/-- fusionv3.py load_day_co2, numeric stage: 60-second mean buckets of the
decoded samples (empty buckets dropped). -/
def load_day_co2 (samples : List (Int × ℚ)) : List (Int × ℚ) :=
  resample_mean 60 samples

/-! ### Temporal joiner

fusionv3.py lines 132–138 / fusionv2.py lines 120–126:
    pd.merge_asof(co2.sort_values(..), hr.sort_values(..), on="timestamp",
                  direction="nearest", tolerance=pd.Timedelta(..))
pandas semantics on sorted inputs: for each left timestamp the nearest
right timestamp within the (inclusive) tolerance; on an exact distance
tie the backward (earlier) candidate wins. -/

/-- One fused output row: primary timestamp and value plus the matched
secondary row (`none` = the secondary columns are null). -/
structure Fused : Type where
  ts : Int
  co2 : ℚ
  hrm : Option HrRow
deriving DecidableEq, Repr

/-- Nearest secondary row to `t` within tolerance `T`, over a secondary
list sorted ascending by `ts`: backward candidate = last row with
`ts ≤ t` within `T`, forward candidate = first row with `ts ≥ t` within
`T`; ties go backward (pandas `direction="nearest"`). -/
def asof_nearest (T : Int) (sec : List HrRow) (t : Int) : Option HrRow :=
  let back := (sec.filter (fun r => r.ts ≤ t && t - r.ts ≤ T)).getLast?
  let fwd := (sec.filter (fun r => t ≤ r.ts && r.ts - t ≤ T)).head?
  match back, fwd with
  | none, none => none
  | some b, none => some b
  | none, some f => some f
  | some b, some f => if t - b.ts ≤ f.ts - t then some b else some f

/-- `pd.merge_asof(prim, sec, direction="nearest", tolerance=T)`:
one output row per primary row. -/
def merge_asof (T : Int) (prim : List (Int × ℚ)) (sec : List HrRow) : List Fused :=
  prim.map (fun p => ⟨p.1, p.2, asof_nearest T sec p.1⟩)

def insert_hr (r : HrRow) : List HrRow → List HrRow
  | [] => [r]
  | x :: xs => if r.ts ≤ x.ts then r :: x :: xs else x :: insert_hr r xs

/-- `sort_values("timestamp")` on the flat heart-rate rows. -/
def sort_hr (l : List HrRow) : List HrRow := l.foldr insert_hr []

/-! ### Day-batch orchestrator

fusionv3.py main loop (lines 109–141).  Per calendar day the on-disk
state is the flat heart-rate file (written by flatten_hr when it
extracted at least one row, possibly left over from an earlier run) and
the fused output file.  `flatten_hr` returns the flat path whether or not
it wrote; the orchestrator's skip test is `not flat_csv.exists()`. -/

/-- Per-day on-disk state: contents of `flat/hr_<day>.csv` and of
`fused/fused_<day>.csv` (`none` = file absent). -/
structure DayState : Type where
  flat : Option (List HrRow)
  fused : Option (List Fused)
deriving DecidableEq, Repr

/-- Per-day raw inputs: the parsed raw-archive rows (`none` = a row
`ast.literal_eval` rejects) and the decoded CO₂ samples for the day. -/
structure DayInput : Type where
  raws : List (Option Payload)
  co2s : List (Int × ℚ)
deriving DecidableEq, Repr

inductive Outcome : Type
  | skippedNoHr
  | skippedNoCo2
  | written (t : List Fused)
deriving DecidableEq, Repr

/-- `pd.Timedelta("3min")` of fusionv3.py, in seconds. -/
def TOL : Int := 180

/-- fusionv3.py lines 113–141, after flatten_hr ran: skip if the flat
file is absent; read it, drop rows with null `hr_bpm`, skip if empty;
load the day's CO₂ buckets, skip if empty; else merge and write. -/
def run_from_flat (co2s : List (Int × ℚ)) (s : DayState) : DayState × Outcome :=
  match s.flat with
  | none => (s, Outcome.skippedNoHr)
  | some fr =>
    let hr := fr.filter (fun r => r.hr.isSome)
    if hr.isEmpty then (s, Outcome.skippedNoHr)
    else
      let co2 := load_day_co2 co2s
      if co2.isEmpty then (s, Outcome.skippedNoCo2)
      else
        let merged := merge_asof TOL co2 (sort_hr hr)
        ({ s with fused := some merged }, Outcome.written merged)

/-- One iteration of the fusionv3.py main loop for one day: flatten_hr
(which only writes the flat file when it extracted rows), then the
skip/merge/write sequence. -/
def run_day (I : DayInput) (s : DayState) : DayState × Outcome :=
  let rows := flatten_rows I.raws
  let s1 := if rows.isEmpty then s else { s with flat := some rows }
  run_from_flat I.co2s s1

/-- The whole main loop: each day is processed with its own input and its
own on-disk state; no day's outcome interrupts the iteration. -/
def run_batch (ds : List (DayInput × DayState)) : List (DayState × Outcome) :=
  ds.map (fun p => run_day p.1 p.2)

/-! ### Output write model

fusionv3.py line 141: `merged.to_csv(out, index=False)` — a direct
`open(out, "w")` (truncate) followed by sequential writes at the final
path; there is no temporary file and no rename.  A file system maps a
path to the byte content (`none` = absent). -/

def Fs : Type := String → Option (List Char)

/-- A completed `to_csv(out)`: the file at `path` holds `content`. -/
def write_csv (path : String) (content : List Char) (fs : Fs) : Fs :=
  fun p => if p = path then some content else fs p

/-- A `to_csv(out)` hit by an I/O error after `k` bytes: `open(out,"w")`
has already truncated, so the file at `path` holds the first `k` bytes of
the intended content. -/
def write_csv_interrupted (path : String) (content : List Char) (k : Nat) (fs : Fs) : Fs :=
  fun p => if p = path then some (content.take k) else fs p

/-- The main loop with write failures: the day-index predicate `wf` says
whether writing day `i`'s output raises.  `merged.to_csv(out)` is not
wrapped in any try/except, so a raising write ends the whole loop. -/
def run_batch_exc (wf : Nat → Bool) : Nat → List (DayInput × DayState) →
    Except Nat (List (DayState × Outcome))
  | _, [] => Except.ok []
  | i, d :: ds =>
    let r := run_day d.1 d.2
    let wrote := match r.2 with
      | Outcome.written _ => true
      | _ => false
    if wrote && wf i then Except.error i
    else
      match run_batch_exc wf (i + 1) ds with
      | Except.ok rest => Except.ok (r :: rest)
      | Except.error e => Except.error e

/-! ## Claims -/

/-- C1: the temporal join (`pd.merge_asof`) emits exactly one fused row
per primary (CO₂) row, carrying that row's timestamp, whatever the
secondary (heart-rate) series is; no primary row is dropped. -/
theorem c1_left_join_complete (T : Int) (prim : List (Int × ℚ)) (sec : List HrRow) :
    (merge_asof T prim sec).length = prim.length ∧
    (merge_asof T prim sec).map Fused.ts = prim.map Prod.fst := by
  constructor
  · simp [merge_asof]
  · simp [merge_asof]

/-- C2: the tolerance boundary is inclusive: a secondary sample at
exactly `t + T` is matched, while one at `t + T + ε` (any `ε > 0`) is
not, leaving the secondary fields null in that fused row. -/
theorem c2_tolerance_boundary (t T ε : Int) (pv hq : ℚ) (src ctx : Option String)
    (hT : 0 ≤ T) (hε : 0 < ε) :
    merge_asof T [(t, pv)] [⟨t + T, some hq, src, ctx⟩] =
      [⟨t, pv, some ⟨t + T, some hq, src, ctx⟩⟩] ∧
    merge_asof T [(t, pv)] [⟨t + T + ε, some hq, src, ctx⟩] = [⟨t, pv, none⟩] := by
  constructor
  · by_cases hT0 : T = 0
    · subst hT0
      simp [merge_asof, asof_nearest, List.filter]
    · have hb : ¬(t + T ≤ t) := by omega
      have hf : t ≤ t + T := by omega
      have hf2 : t + T ≤ T + t := by omega
      simp [merge_asof, asof_nearest, List.filter, hb, hf, hf2]
  · have hb : ¬(t + T + ε ≤ t) := by omega
    have hf : t ≤ t + T + ε := by omega
    have hf2 : ¬(t + T + ε ≤ T + t) := by omega
    simp [merge_asof, asof_nearest, List.filter, hb, hf, hf2]

/-- C2 witness: concrete boundary check at `t = 1000`, `T = 180`,
`ε = 1`. -/
theorem c2_tolerance_boundary_witness :
    merge_asof 180 [(1000, (600 : ℚ))] [⟨1180, some 72, none, none⟩] =
      [⟨1000, 600, some ⟨1180, some 72, none, none⟩⟩] ∧
    merge_asof 180 [(1000, (600 : ℚ))] [⟨1181, some 72, none, none⟩] = [⟨1000, 600, none⟩] :=
  c2_tolerance_boundary 1000 180 1 600 72 none none (by decide) (by decide)

/-- C3: with two secondary candidates at equal absolute distance `d ≤ T`
on both sides of a primary timestamp, the join picks the earlier one;
the selection is a function of the inputs, hence deterministic across
runs. -/
theorem c3_tie_break_earlier (t d T : Int) (pv : ℚ) (r1 r2 : HrRow)
    (hd : 0 < d) (hdT : d ≤ T) (h1 : r1.ts = t - d) (h2 : r2.ts = t + d) :
    merge_asof T [(t, pv)] [r1, r2] = [⟨t, pv, some r1⟩] := by
  have hb1 : r1.ts ≤ t := by omega
  have hb1' : t ≤ T + r1.ts := by omega
  have hb2 : ¬(r2.ts ≤ t) := by omega
  have hf1 : ¬(t ≤ r1.ts) := by omega
  have hf2 : t ≤ r2.ts := by omega
  have hf2' : r2.ts ≤ T + t := by omega
  have htie : t ≤ r2.ts - t + r1.ts := by omega
  simp [merge_asof, asof_nearest, List.filter, hb1, hb1', hb2, hf1, hf2, hf2', htie]

/-- C3 witness: candidates 90 s before and after the primary minute,
tolerance 180 s — the earlier one is selected. -/
theorem c3_tie_break_earlier_witness :
    merge_asof 180 [(1000, (600 : ℚ))]
        [⟨910, some 70, none, none⟩, ⟨1090, some 80, none, none⟩] =
      [⟨1000, 600, some ⟨910, some 70, none, none⟩⟩] :=
  c3_tie_break_earlier 1000 90 180 600 ⟨910, some 70, none, none⟩
    ⟨1090, some 80, none, none⟩ (by decide) (by decide) (by decide) (by decide)

/-- C4: the 60 s right-open mean bucketing of the normalizer on the
spec's five samples yields exactly the three buckets 00:00 → 605,
00:01 → 625, 00:02 → 640; and a bucket with no samples is omitted, not
emitted as null. -/
theorem c4_bucketing :
    load_day_co2 [(10, 600), (40, 610), (65, 620), (110, 630), (150, 640)] =
      [(0, 605), (60, 625), (120, 640)] ∧
    load_day_co2 [(10, 600), (130, 640)] = [(0, 600), (120, 640)] := by
  have h1 : mean_q [600, 610] = 605 := by norm_num [mean_q]
  have h2 : mean_q [620, 630] = 625 := by norm_num [mean_q]
  have h3 : mean_q [640] = 640 := by norm_num [mean_q]
  have h4 : mean_q [600] = 600 := by norm_num [mean_q]
  constructor
  · have e : load_day_co2 [(10, 600), (40, 610), (65, 620), (110, 630), (150, 640)] =
        [(0, mean_q [600, 610]), (60, mean_q [620, 630]), (120, mean_q [640])] := by rfl
    rw [e, h1, h2, h3]
  · have e : load_day_co2 [(10, 600), (130, 640)] =
        [(0, mean_q [600]), (120, mean_q [640])] := by rfl
    rw [e, h4, h3]

/-- C6: the line decoder strips array delimiters, trailing separators and
blank lines; a line the structured parser rejects (for any parser, hence
in particular a truncated final line) is dropped while every prior
parseable line still yields its record, and the decoder is a total
function (it never raises). -/
theorem c6_tolerant_decode {α : Type} (jparse : String → Option α)
    (lines : List String) (bad ln : String) (r : α) :
    (jparse (clean_line bad) = none →
      decode_co2_lines jparse (lines ++ [bad]) = decode_co2_lines jparse lines) ∧
    (¬(clean_line ln = "" ∨ clean_line ln = "[" ∨ clean_line ln = "]") →
      jparse (clean_line ln) = some r →
      decode_co2_lines jparse [ln] = [r]) ∧
    decode_co2_lines jparse ["", "[", "]"] = [] := by
  refine ⟨?_, ?_, ?_⟩
  · intro h
    by_cases hc : clean_line bad = "" ∨ clean_line bad = "[" ∨ clean_line bad = "]"
    · simp [decode_co2_lines, hc]
    · simp [decode_co2_lines, hc, h]
  · intro h1 h2
    simp [decode_co2_lines, h1, h2]
  · have e1 : clean_line "" = "" := by decide
    have e2 : clean_line "[" = "[" := by decide
    have e3 : clean_line "]" = "]" := by decide
    simp [decode_co2_lines, e1, e2, e3]

/-- C6 witness: with the concrete line reader, an input of a bracket
line, two valid records (one with surrounding blanks and a trailing
comma) and the spec's truncated final line yields exactly the two valid
records; the truncated line alone yields nothing. -/
theorem c6_tolerant_decode_witness :
    decode_co2_lines json_loads_obj
        ["[",
         "  \x7b\"timestamp\":\"2025-07-28T00:00:00Z\",\"co2_ppm\":610\x7d,  ",
         "\x7b\"timestamp\":\"2025-07-28T00:00:30Z\",\"co2_ppm\":612\x7d,",
         "\x7b\"timestamp\":\"2025-07-28T00:01:00Z\",\"co2_ppm\":61"] =
      decode_co2_lines json_loads_obj
        ["[",
         "  \x7b\"timestamp\":\"2025-07-28T00:00:00Z\",\"co2_ppm\":610\x7d,  ",
         "\x7b\"timestamp\":\"2025-07-28T00:00:30Z\",\"co2_ppm\":612\x7d,"] ∧
    decode_co2_lines json_loads_obj
        ["  \x7b\"timestamp\":\"2025-07-28T00:00:00Z\",\"co2_ppm\":610\x7d,  "] =
      [[("timestamp", JVal.jstr "2025-07-28T00:00:00Z"), ("co2_ppm", JVal.jnum 610)]] :=
  ⟨((c6_tolerant_decode json_loads_obj
      ["[",
       "  \x7b\"timestamp\":\"2025-07-28T00:00:00Z\",\"co2_ppm\":610\x7d,  ",
       "\x7b\"timestamp\":\"2025-07-28T00:00:30Z\",\"co2_ppm\":612\x7d,"]
      ("\x7b\"timestamp\":\"2025-07-28T00:01:00Z\",\"co2_ppm\":61")
      ("x") ([])).1 (by decide)),
   ((c6_tolerant_decode json_loads_obj []
      ("x")
      ("  \x7b\"timestamp\":\"2025-07-28T00:00:00Z\",\"co2_ppm\":610\x7d,  ")
      ([("timestamp", JVal.jstr "2025-07-28T00:00:00Z"), ("co2_ppm", JVal.jnum 610)])).2.1
      (by decide) (by decide))⟩

/-- C7 counterexample: a beat dict carrying only a `Min` field.  The
fusionv3 decoder (`beat.get("Avg", beat.get("value"))`) extracts no
value for it — only the legacy old_fusion_code/fusionv2.py decoder falls
back to `Min` — and the flattened row it yields carries a null `hr_bpm`
that the orchestrator's `dropna` then removes. -/
theorem c7_counterexample :
    hr_of_beat ⟨0, none, none, some 60, none, none, none⟩ = none ∧
    hr_of_beat_legacy ⟨0, none, none, some 60, none, none, none⟩ = some 60 ∧
    flatten_rows [some ⟨[⟨"heart_rate", [⟨0, none, none, some 60, none, none, none⟩]⟩]⟩] =
      [⟨0, none, none, none⟩] ∧
    List.filter (fun r => r.hr.isSome) [(⟨0, none, none, none⟩ : HrRow)] = [] := by
  refine ⟨rfl, by decide, rfl, rfl⟩

/-- C7 amended: the current decoder (fusionv3 flatten_hr) extracts `Avg`
if present, else the `value` field, with no further fallback; only the
legacy decoder (old_fusion_code/fusionv2.py) additionally falls back to
`Min` then `Max` under Python or-semantics.  A beat with only `Min`/`Max`
yields a row whose value is null in fusionv3, later dropped. -/
theorem c7_amended (b : Beat) (a : ℚ) :
    (b.avg = some a → hr_of_beat b = some a ∧ hr_of_beat_legacy b = some a) ∧
    (b.avg = none → hr_of_beat b = b.value) ∧
    (b.avg = none → b.value = none → hr_of_beat_legacy b = py_or b.min b.max) := by
  refine ⟨fun h => ⟨?_, ?_⟩, fun h => ?_, fun h h2 => ?_⟩
  · simp [hr_of_beat, h]
  · simp [hr_of_beat_legacy, h]
  · simp [hr_of_beat, h]
  · simp [hr_of_beat_legacy, h, h2, py_or]

/-- C7 witness: `Avg` wins when present; `value` is used when `Avg` is
absent; with both absent the legacy decoder falls to `Min`/`Max`. -/
theorem c7_amended_witness :
    hr_of_beat ⟨0, some 75, some 70, none, none, none, none⟩ = some 75 ∧
    hr_of_beat ⟨0, none, some 70, none, none, none, none⟩ = some 70 ∧
    hr_of_beat_legacy ⟨0, none, none, some 60, some 90, none, none⟩ = py_or (some 60) (some 90) :=
  ⟨((c7_amended ⟨0, some 75, some 70, none, none, none, none⟩ 75).1 rfl).1,
   (c7_amended ⟨0, none, some 70, none, none, none, none⟩ 0).2.1 rfl,
   (c7_amended ⟨0, none, none, some 60, some 90, none, none⟩ 0).2.2 rfl rfl⟩

lemma daystate_eta_flat (st : DayState) (x : Option (List HrRow)) (h : st.flat = x) :
    { st with flat := x } = st := by
  cases st with
  | mk f fu =>
    simp only [DayState.flat] at h
    rw [h]

lemma run_from_flat_flat (c : List (Int × ℚ)) (s : DayState) :
    ((run_from_flat c s).1).flat = s.flat := by
  cases h : s.flat with
  | none => simp [run_from_flat, h]
  | some fr =>
    by_cases h1 : (fr.filter (fun r => r.hr.isSome)).isEmpty = true
    · simp [run_from_flat, h, h1]
    · by_cases h2 : (load_day_co2 c).isEmpty = true
      · simp [run_from_flat, h, h1, h2]
      · simp [run_from_flat, h, h1, h2]

lemma run_from_flat_idem (c : List (Int × ℚ)) (s : DayState) :
    run_from_flat c (run_from_flat c s).1 = run_from_flat c s := by
  cases h : s.flat with
  | none =>
    have e : run_from_flat c s = (s, Outcome.skippedNoHr) := by simp [run_from_flat, h]
    rw [e]
    exact e
  | some fr =>
    by_cases h1 : (fr.filter (fun r => r.hr.isSome)).isEmpty = true
    · have e : run_from_flat c s = (s, Outcome.skippedNoHr) := by simp [run_from_flat, h, h1]
      rw [e]
      exact e
    · by_cases h2 : (load_day_co2 c).isEmpty = true
      · have e : run_from_flat c s = (s, Outcome.skippedNoCo2) := by
          simp [run_from_flat, h, h1, h2]
        rw [e]
        exact e
      · have e : run_from_flat c s =
            ({ s with fused := some (merge_asof TOL (load_day_co2 c)
                (sort_hr (fr.filter (fun r => r.hr.isSome)))) },
             Outcome.written (merge_asof TOL (load_day_co2 c)
                (sort_hr (fr.filter (fun r => r.hr.isSome))))) := by
          simp [run_from_flat, h, h1, h2]
        rw [e]
        simp [run_from_flat, h, h1, h2]

lemma run_from_flat_fused (c : List (Int × ℚ)) (s : DayState) :
    ((run_from_flat c s).1).fused =
      (match (run_from_flat c s).2 with
       | Outcome.written m => some m
       | _ => s.fused) := by
  cases h : s.flat with
  | none => simp [run_from_flat, h]
  | some fr =>
    by_cases h1 : (fr.filter (fun r => r.hr.isSome)).isEmpty = true
    · simp [run_from_flat, h, h1]
    · by_cases h2 : (load_day_co2 c).isEmpty = true
      · simp [run_from_flat, h, h1, h2]
      · simp [run_from_flat, h, h1, h2]

/-- C5: one day's pipeline is idempotent on the per-day on-disk state —
a second run on unchanged inputs reproduces exactly the same flat and
fused files and the same outcome (the output is a deterministic function
of the inputs, hence byte-identical once serialized) — and the fused
file is fully replaced, never appended: after a writing run it holds
exactly the freshly computed table, after a skipping run it is
untouched. -/
theorem c5_idempotent_replace (I : DayInput) (s : DayState) :
    run_day I (run_day I s).1 = run_day I s ∧
    ((run_day I s).1).fused =
      (match (run_day I s).2 with
       | Outcome.written m => some m
       | _ => s.fused) := by
  constructor
  · unfold run_day
    cases hre : (flatten_rows I.raws).isEmpty with
    | true =>
      simp only [hre, if_true]
      exact run_from_flat_idem _ _
    | false =>
      simp only [hre, Bool.false_eq_true, if_false]
      have hf : ((run_from_flat I.co2s { s with flat := some (flatten_rows I.raws) }).1).flat =
          some (flatten_rows I.raws) :=
        run_from_flat_flat _ _
      rw [daystate_eta_flat _ _ hf]
      exact run_from_flat_idem _ _
  · unfold run_day
    cases hre : (flatten_rows I.raws).isEmpty with
    | true =>
      simp only [hre, if_true]
      exact run_from_flat_fused _ _
    | false =>
      simp only [hre, Bool.false_eq_true, if_false]
      rw [run_from_flat_fused]

/-- C8: the batch loop processes every day: it yields exactly one outcome
per day, days are processed independently (splitting the batch splits the
outcomes), a day with no decodable beats (and no pre-existing flat file)
is skipped with the no-heart-rate diagnostic, and a day with beats but
zero CO₂ records is skipped with the no-CO₂ diagnostic — in all cases
the remaining days still run. -/
theorem c8_batch_isolation :
    (∀ ds : List (DayInput × DayState), (run_batch ds).length = ds.length) ∧
    (∀ ds1 ds2 : List (DayInput × DayState),
      run_batch (ds1 ++ ds2) = run_batch ds1 ++ run_batch ds2) ∧
    (∀ (I : DayInput) (s : DayState), flatten_rows I.raws = [] → s.flat = none →
      run_day I s = (s, Outcome.skippedNoHr)) ∧
    (∀ (I : DayInput) (s : DayState), s.flat = none →
      (flatten_rows I.raws).filter (fun r => r.hr.isSome) ≠ [] →
      load_day_co2 I.co2s = [] →
      run_day I s =
        ({ s with flat := some (flatten_rows I.raws) }, Outcome.skippedNoCo2)) := by
  refine ⟨?_, ?_, ?_, ?_⟩
  · intro ds
    simp [run_batch]
  · intro ds1 ds2
    simp [run_batch]
  · intro I s h1 h2
    simp [run_day, run_from_flat, h1, h2]
  · intro I s h1 h2 h3
    have hne : (flatten_rows I.raws).isEmpty = false := by
      cases he : flatten_rows I.raws with
      | nil => rw [he] at h2; simp at h2
      | cons a l => simp
    have hfe : ((flatten_rows I.raws).filter (fun r => r.hr.isSome)).isEmpty = false := by
      cases he : (flatten_rows I.raws).filter (fun r => r.hr.isSome) with
      | nil => exact absurd he h2
      | cons a l => simp
    simp [run_day, run_from_flat, hne, hfe, h3]

/-- C8 witness: a three-day batch where the middle day has raw input but
zero decodable beats (skipped) and a later day has beats but no CO₂
records (skipped), split around a healthy first day: every day yields
its own outcome. -/
theorem c8_batch_isolation_witness :
    run_day ⟨[], [(10, 600)]⟩ ⟨none, none⟩ = (⟨none, none⟩, Outcome.skippedNoHr) ∧
    run_day ⟨[some ⟨[⟨"heart_rate", [⟨30, some 72, none, none, none, none, none⟩]⟩]⟩], []⟩
        ⟨none, none⟩ =
      (⟨some [⟨30, some 72, none, none⟩], none⟩, Outcome.skippedNoCo2) ∧
    run_batch ([(⟨[some ⟨[⟨"heart_rate", [⟨30, some 72, none, none, none, none, none⟩]⟩]⟩],
          [(10, 600)]⟩, ⟨none, none⟩)] ++
        [(⟨[], [(10, 600)]⟩, ⟨none, none⟩), (⟨[], []⟩, ⟨none, none⟩)]) =
      run_batch [(⟨[some ⟨[⟨"heart_rate", [⟨30, some 72, none, none, none, none, none⟩]⟩]⟩],
          [(10, 600)]⟩, ⟨none, none⟩)] ++
        run_batch [(⟨[], [(10, 600)]⟩, ⟨none, none⟩), (⟨[], []⟩, ⟨none, none⟩)] :=
  ⟨c8_batch_isolation.2.2.1 ⟨[], [(10, 600)]⟩ ⟨none, none⟩ rfl rfl,
   c8_batch_isolation.2.2.2
     ⟨[some ⟨[⟨"heart_rate", [⟨30, some 72, none, none, none, none, none⟩]⟩]⟩], []⟩
     ⟨none, none⟩ rfl (by decide) rfl,
   c8_batch_isolation.2.1 _ _⟩

/-- C10: `flatten_hr` writes the flat file only when it extracted rows,
but the orchestrator's skip test is file existence; so on a day whose raw
input yields zero decodable beats, a flat file left by an earlier run is
silently consumed as the day's secondary series and the day is written,
not skipped. -/
theorem c10_stale_flat_consumed (I : DayInput) (s : DayState) (stale : List HrRow)
    (h0 : flatten_rows I.raws = []) (h1 : s.flat = some stale)
    (h2 : (stale.filter (fun r => r.hr.isSome)).isEmpty = false)
    (h3 : (load_day_co2 I.co2s).isEmpty = false) :
    run_day I s =
      ({ s with fused := some (merge_asof TOL (load_day_co2 I.co2s)
          (sort_hr (stale.filter (fun r => r.hr.isSome)))) },
       Outcome.written (merge_asof TOL (load_day_co2 I.co2s)
          (sort_hr (stale.filter (fun r => r.hr.isSome))))) := by
  simp [run_day, run_from_flat, h0, h1, h2, h3]

/-- C10 witness: a day with zero decodable beats but a stale flat row on
disk produces a written fused table built from the stale row. -/
theorem c10_stale_flat_consumed_witness :
    run_day ⟨[], [(10, 600)]⟩ ⟨some [⟨100, some 72, none, none⟩], none⟩ =
      (⟨some [⟨100, some 72, none, none⟩],
        some (merge_asof TOL (load_day_co2 [(10, 600)])
          (sort_hr (List.filter (fun r => r.hr.isSome) [⟨100, some 72, none, none⟩])))⟩,
       Outcome.written (merge_asof TOL (load_day_co2 [(10, 600)])
          (sort_hr (List.filter (fun r => r.hr.isSome) [⟨100, some 72, none, none⟩])))) :=
  c10_stale_flat_consumed ⟨[], [(10, 600)]⟩ ⟨some [⟨100, some 72, none, none⟩], none⟩
    [⟨100, some 72, none, none⟩] rfl rfl (by decide) (by decide)

/-- C9 counterexample: `merged.to_csv(out)` writes directly at the final
path; an I/O error after three bytes of the new table leaves "new" —
a strict partial table, neither the previous complete table nor the new
one — visible at the day's output path; and since the write is not
wrapped in any try/except, a failing write on the first day aborts the
whole batch rather than that day only. -/
theorem c9_counterexample :
    (write_csv_interrupted ("fused_2025-07-28.csv") ("new_full_table".toList) 3
        (write_csv ("fused_2025-07-28.csv") ("old_table".toList) (fun _ => none)))
        ("fused_2025-07-28.csv") = some ("new".toList) ∧
    ("new".toList ≠ "new_full_table".toList) ∧
    ("new".toList ≠ "old_table".toList) ∧
    run_batch_exc (fun _ => true) 0
        [(⟨[some ⟨[⟨"heart_rate", [⟨30, some 72, none, none, none, none, none⟩]⟩]⟩],
           [(10, 600)]⟩, ⟨none, none⟩),
         (⟨[some ⟨[⟨"heart_rate", [⟨90, some 80, none, none, none, none, none⟩]⟩]⟩],
           [(20, 610)]⟩, ⟨none, none⟩)] = Except.error 0 := by
  refine ⟨by decide, by decide, by decide, by rfl⟩

/-- C9 amended: the fused write is a direct truncate-and-write at the
final output path (no temporary file, no rename): an I/O error after `k`
of the content's bytes leaves exactly that partial prefix visible there
in place of whatever was written before; and the uncaught error aborts
the entire batch run, not only that day. -/
theorem c9_amended (path : String) (content : List Char) (k : Nat) (fs : Fs)
    (hk : k < content.length) (wf : Nat → Bool) (d : DayInput × DayState)
    (ds : List (DayInput × DayState)) (m : List Fused)
    (hw : (run_day d.1 d.2).2 = Outcome.written m) (hwf : wf 0 = true) :
    write_csv_interrupted path content k fs path = some (content.take k) ∧
    content.take k ≠ content ∧
    run_batch_exc wf 0 (d :: ds) = Except.error 0 := by
  refine ⟨?_, ?_, ?_⟩
  · simp [write_csv_interrupted]
  · intro h
    have hl := congrArg List.length h
    simp [List.length_take] at hl
    omega
  · simp [run_batch_exc, hw, hwf]

/-- C9 amended witness: interrupted two-byte write of a five-byte table,
and a batch whose first day's write raises. -/
theorem c9_amended_witness :
    write_csv_interrupted ("fused.csv") ("table".toList) 2 (fun _ => none) ("fused.csv") =
      some ("table".toList.take 2) ∧
    "table".toList.take 2 ≠ "table".toList ∧
    run_batch_exc (fun _ => true) 0
        [(⟨[some ⟨[⟨"heart_rate", [⟨30, some 72, none, none, none, none, none⟩]⟩]⟩],
           [(10, 600)]⟩, ⟨none, none⟩)] = Except.error 0 :=
  c9_amended ("fused.csv") ("table".toList) 2 (fun _ => none) (by decide) (fun _ => true)
    (⟨[some ⟨[⟨"heart_rate", [⟨30, some 72, none, none, none, none, none⟩]⟩]⟩],
      [(10, 600)]⟩, ⟨none, none⟩) []
    (merge_asof TOL (load_day_co2 [(10, 600)])
      (sort_hr (List.filter (fun r => r.hr.isSome) [⟨30, some 72, none, none⟩])))
    rfl rfl

end Co2Fusion
